import Mathlib

/-!
Verification of the FoundryVTT Raspberry Pi operations scripts.

This file shallowly embeds the two core Python modules of the repository,
`signal_listener.py` (the command-and-alert relay) and `health_check.py`
(the retrying health monitor), as pure Lean functions that return explicit
lists of observable effects (messages sent, local actions run, log lines
written, probes performed, sleeps, alerts).  Theorems about these
definitions settle the specification's testable properties.

The Python string primitives used by the code (`str.startswith`,
`str.strip`, slicing `s[n:]`, `str.split(',')`) are modelled directly on
the character list underlying a Lean `String`, so that every definition
evaluates by kernel reduction on concrete inputs.
-/

/-! ## Python string primitives -/

/-- The whitespace characters stripped by Python `str.strip()` (the ASCII
ones; the scripts only ever deal with ASCII whitespace). -/
def pyIsSpace (c : Char) : Bool :=
  c = ' ' || c = '\t' || c = '\n' || c = '\r' || c = '\x0b' || c = '\x0c'

/-- Python `str.strip()`: remove leading and trailing whitespace. -/
def pyStrip (s : String) : String :=
  ⟨(((s.data.dropWhile pyIsSpace).reverse.dropWhile pyIsSpace).reverse)⟩

/-- Python slicing `s[n:]`: drop the first `n` characters. -/
def strDrop (s : String) (n : Nat) : String :=
  ⟨s.data.drop n⟩

/-- Python `s.startswith(p)`. -/
def pyStartswith (s p : String) : Bool :=
  p.data.isPrefixOf s.data

/-- Splitting a character list on a separator character, Python
`str.split(sep)` style: the empty list yields one empty field. -/
def splitCharList (sep : Char) : List Char → List (List Char)
  | [] => [[]]
  | c :: rest =>
    let r := splitCharList sep rest
    if c = sep then [] :: r
    else
      match r with
      | [] => [[c]]
      | h :: t => (c :: h) :: t

/-- Python `s.split(',')`: in particular `''.split(',') == ['']`. -/
def pySplitComma (s : String) : List String :=
  (splitCharList ',' s.data).map (fun l => ⟨l⟩)

/-! ## signal_listener.py -/

/-- An observable effect of the signal listener: either a Signal message
sent to the group (`send_signal_message`) or a local shell action executed
(`subprocess.run` in the dispatch table of `handle_command`). -/
inductive Effect where
  | send (msg : String)
  | run (cmd : String)
deriving DecidableEq, Repr

/-- One decoded inbound message unit: `source` and
`dataMessage.message` as extracted in `listen_for_signal_messages`
(missing fields default to the empty string via `.get(..., '')`). -/
structure Envelope where
  source : String
  body : String
deriving DecidableEq, Repr

/-- `COMMAND_PREFIX = "!"` from `signal_listener.py`. -/
def commandPrefixStr : String := "!"

/-- `ALLOWED_COMMANDS` from `signal_listener.py`: the fixed vocabulary of
eight command strings. -/
def ALLOWED_COMMANDS : List String := [
  "foundry status",
  "foundry restart",
  "foundry health",
  "foundry backup",
  "foundry uptime",
  "foundry space",
  "foundry reboot",
  "foundry help"
]

/-- `AUTHORIZED_SENDERS = os.getenv('AUTHORIZED_SENDERS', '').split(',')`:
the allow-list obtained by splitting the environment variable (empty
string when unset) on commas. -/
def authorized_senders (envVal : Option String) : List String :=
  pySplitComma (envVal.getD "")

/-- `parse_command` from `signal_listener.py`: `None` unless the body
starts with the prefix; otherwise the remainder (`body[len(prefix):]`)
stripped of surrounding whitespace. -/
def parse_command (body : String) : Option String :=
  if pyStartswith body commandPrefixStr then
    some (pyStrip (strDrop body commandPrefixStr.length))
  else
    none

/-- The fixed access-denied message of `handle_command`. -/
def accessDeniedMsg : String := "Unauthorized sender. Access denied."

/-- The invalid-command message of `handle_command`, naming the offending
command text. -/
def invalidCommandMsg (command : String) : String :=
  "Invalid command \x27" ++ command ++ "\x27. Send \x27!foundry help\x27 for options."

/-- The fixed multi-line help message of `handle_command`, listing all
eight vocabulary commands. -/
def helpMessage : String :=
  "Available commands:\n" ++
  "!foundry status\n" ++
  "!foundry restart\n" ++
  "!foundry health\n" ++
  "!foundry backup\n" ++
  "!foundry uptime\n" ++
  "!foundry space\n" ++
  "!foundry reboot\n" ++
  "!foundry help"

/-- `handle_command` from `signal_listener.py`: authorization check first,
then vocabulary validation, then the if/elif dispatch table.  Returns the
list of observable effects in order. -/
def handle_command (command sender : String) (senders : List String) : List Effect :=
  if sender ∉ senders then
    [.send accessDeniedMsg]
  else if command ∉ ALLOWED_COMMANDS then
    [.send (invalidCommandMsg command)]
  else if command = "foundry status" then
    [.run "./foundry.sh status"]
  else if command = "foundry restart" then
    [.run "./foundry.sh restart"]
  else if command = "foundry health" then
    [.run "python3 ../python/health_check.py"]
  else if command = "foundry backup" then
    [.run "./foundry.sh backup"]
  else if command = "foundry uptime" then
    [.run "uptime"]
  else if command = "foundry space" then
    [.run "df -h /backups"]
  else if command = "foundry reboot" then
    [.run "sudo reboot"]
  else if command = "foundry help" then
    [.send helpMessage]
  else
    []

/-- Processing of one decoded envelope inside `listen_for_signal_messages`:
`if body: command = parse_command(body); if command: handle_command(...)`.
Note that both the Python truthiness test on `body` and on `command` treat
the empty string as false. -/
def processEnvelope (senders : List String) (env : Envelope) : List Effect :=
  if env.body = "" then []
  else
    match parse_command env.body with
    | none => []
    | some command =>
      if command = "" then []
      else handle_command command env.source senders

/-- One newline-delimited line of transport output, as seen by the decode
loop of `listen_for_signal_messages`: either it fails to decode as JSON
(`malformed`, carrying the raw line) or it decodes to an envelope. -/
inductive RawLine where
  | malformed (raw : String)
  | wellFormed (env : Envelope)
deriving DecidableEq, Repr

/-- The log line printed on `json.JSONDecodeError` (timestamp tag
omitted from the model): it includes the raw line content. -/
def decodeFailMsg (raw : String) : String :=
  "Failed to decode message: " ++ raw

/-- One poll cycle of `listen_for_signal_messages` over its decoded lines:
returns the dispatch effects and the log lines written, each in order. -/
def processCycle (senders : List String) : List RawLine → List Effect × List String
  | [] => ([], [])
  | .malformed raw :: rest =>
    let (effs, logs) := processCycle senders rest
    (effs, decodeFailMsg raw :: logs)
  | .wellFormed env :: rest =>
    let (effs, logs) := processCycle senders rest
    (processEnvelope senders env ++ effs, logs)

/-! ## health_check.py -/

/-- A result of a `subprocess.run(..., capture_output=True)` call: exit
code and captured standard output. -/
structure CmdResult where
  exitcode : Int
  stdout : String
deriving DecidableEq, Repr

/-- `check_foundry_container` from `health_check.py`:
`bool(result.stdout.strip())` — true iff the container-runtime query
produced non-empty (after stripping) output. -/
def check_foundry_container (r : CmdResult) : Bool :=
  !(pyStrip r.stdout == "")

/-- `check_web_server` from `health_check.py`:
`result.returncode == 0` — true iff the bounded-timeout curl probe
exited successfully (the HTTP status is never inspected). -/
def check_web_server (r : CmdResult) : Bool :=
  r.exitcode == 0

/-- Python `str(bool)` rendering used in the health-check log lines. -/
def pyBool (b : Bool) : String :=
  if b then "True" else "False"

/-- The per-attempt log line `f"Health check attempt {attempt}..."`. -/
def attemptMsg (attempt : Nat) : String :=
  "Health check attempt " ++ toString attempt ++ "..."

/-- The intermediate-failure log line
`f"Attempt {attempt}: Foundry container healthy: {container_ok}, Web server healthy: {web_ok}"`. -/
def retryMsg (attempt : Nat) (c w : Bool) : String :=
  "Attempt " ++ toString attempt ++ ": Foundry container healthy: " ++ pyBool c ++
  ", Web server healthy: " ++ pyBool w

/-- The success log line of `health_check`. -/
def healthyMsg : String := "FoundryVTT container and web server are healthy."

/-- The fixed high-urgency failure alert of `health_check`. -/
def healthFailAlertMsg : String :=
  "🚨 FoundryVTT Health Check FAILED after retries! Immediate attention needed!"

/-- An observable effect of `health_check`: log lines (`log`), a probe
round invoking both checks (`probe`, carrying their boolean results),
`time.sleep` calls (`sleep`, carrying the duration), and the Signal
alert (`alert`). -/
inductive HEvent where
  | log (msg : String)
  | probe (container web : Bool)
  | sleep (secs : Nat)
  | alert (msg : String)
deriving DecidableEq, Repr

/-- `retries = 3`: the loop bound of `health_check`
(`for attempt in range(1, retries + 1)`). -/
def healthRetries : Nat := 3

/-- The body of the retry loop of `health_check`, recursing on the number
of remaining iterations; `attempt` is the 1-based loop variable.  The
Prober is abstracted as a function from the attempt number to the pair of
check results.  When the iterations are exhausted, the function sends the
fixed alert and returns failure, exactly as the code after the loop. -/
def healthLoop (prober : Nat → Bool × Bool) : Nat → Nat → Bool × List HEvent
  | 0, _ => (false, [.alert healthFailAlertMsg])
  | remaining + 1, attempt =>
    let c := (prober attempt).1
    let w := (prober attempt).2
    if c && w then
      (true, [.log (attemptMsg attempt), .probe c w, .log healthyMsg])
    else
      let rest := healthLoop prober remaining (attempt + 1)
      (rest.1, [.log (attemptMsg attempt), .probe c w,
                .log (retryMsg attempt c w), .sleep 5] ++ rest.2)

/-- `health_check` from `health_check.py`: run the retry loop starting at
attempt 1 with 3 iterations available. -/
def health_check (prober : Nat → Bool × Bool) : Bool × List HEvent :=
  healthLoop prober healthRetries 1

/-- Number of probe rounds in a health-check event trace. -/
def probeCount : List HEvent → Nat
  | [] => 0
  | .probe _ _ :: rest => probeCount rest + 1
  | _ :: rest => probeCount rest

/-- Number of alerts in a health-check event trace. -/
def alertCount : List HEvent → Nat
  | [] => 0
  | .alert _ :: rest => alertCount rest + 1
  | _ :: rest => alertCount rest

/-! ## Helper lemmas -/

/-- Probe counting distributes over trace concatenation. -/
theorem probeCount_append (l1 l2 : List HEvent) :
    probeCount (l1 ++ l2) = probeCount l1 + probeCount l2 := by
  induction l1 with
  | nil => simp [probeCount]
  | cons e rest ih =>
    cases e <;> simp [probeCount, ih]
    omega

/-- The retry loop performs at most as many probe rounds as it has
iterations available. -/
theorem probeCount_healthLoop_le (prober : Nat → Bool × Bool) :
    ∀ n a, probeCount (healthLoop prober n a).2 ≤ n := by
  intro n
  induction n with
  | zero => intro a; simp [healthLoop, probeCount]
  | succ n ih =>
    intro a
    by_cases hc : ((prober a).1 && (prober a).2) = true
    · simp [healthLoop, hc, probeCount]
    · have hc' : ((prober a).1 && (prober a).2) = false := by simpa using hc
      simp [healthLoop, hc', probeCount_append, probeCount]
      have := ih (a + 1)
      omega

/-! ## Claims -/

/-- C1 (counterexample): the claim quantifies over every Envelope with an
unauthorized sender, but an unauthorized sender whose body does not start
with the command prefix produces no effect at all — in particular, zero
(not exactly one) access-denied notifications. -/
theorem C1_counterexample :
    ("evil" ∉ (["admin"] : List String)) ∧
    processEnvelope ["admin"] ⟨"evil", "hello"⟩ = [] := by
  exact ⟨by decide, rfl⟩

/-- C1 (amended): for every Envelope whose sender is not in the allow-list
and whose body starts with the prefix with a non-empty stripped remainder,
processing produces exactly one access-denied notification and nothing
else (no action, no other reply), even when the remainder is a valid
command. -/
theorem C1_amended_denied (senders : List String) (env : Envelope)
    (hauth : env.source ∉ senders)
    (hpre : pyStartswith env.body commandPrefixStr = true)
    (hcmd : pyStrip (strDrop env.body 1) ≠ "") :
    processEnvelope senders env = [.send accessDeniedMsg] := by
  have hb : env.body ≠ "" := by
    intro h
    rw [h] at hpre
    exact absurd hpre (by decide)
  have hlen : commandPrefixStr.length = 1 := rfl
  simp only [processEnvelope, parse_command, hpre, if_true, hlen, if_neg hb]
  rw [if_neg hcmd]
  simp only [handle_command, if_pos hauth]

/-- C1 witness: a concrete unauthorized sender with a valid-command body
is answered by exactly the access-denied notification. -/
theorem C1_amended_denied_witness :
    processEnvelope ["admin"] ⟨"evil", "!foundry status"⟩ = [.send accessDeniedMsg] :=
  C1_amended_denied ["admin"] ⟨"evil", "!foundry status"⟩ (by decide) (by decide) (by decide)

/-- C2: when the AUTHORIZED_SENDERS environment variable is unset or
empty, the allow-list is the one-element list containing the empty
string; the empty-string sender passes the Authorization Guard, and its
command is dispatched rather than denied. -/
theorem C2_empty_allowlist :
    authorized_senders none = [""] ∧
    authorized_senders (some "") = [""] ∧
    "" ∈ authorized_senders none ∧
    processEnvelope (authorized_senders none) ⟨"", "!foundry status"⟩ =
      [.run "./foundry.sh status"] := by
  exact ⟨rfl, rfl, by decide, rfl⟩

/-- C3 (counterexample): the body `"!"` starts with the prefix and its
stripped remainder (the empty string) is not one of the eight vocabulary
strings, yet an authorized sender gets no reply at all — the listener's
truthiness test on the parsed command silently drops it. -/
theorem C3_counterexample :
    ("admin" ∈ (["admin"] : List String)) ∧
    pyStartswith "!" commandPrefixStr = true ∧
    pyStrip (strDrop "!" 1) ∉ ALLOWED_COMMANDS ∧
    processEnvelope ["admin"] ⟨"admin", "!"⟩ = [] := by
  exact ⟨by decide, by decide, by decide, rfl⟩

/-- C3 (amended): for every authorized sender and every body starting with
the prefix whose stripped remainder is non-empty and not in the
vocabulary, exactly one invalid-command notification naming the offending
text is sent and no local action is executed. -/
theorem C3_amended_invalid (senders : List String) (sender body : String)
    (hauth : sender ∈ senders)
    (hpre : pyStartswith body commandPrefixStr = true)
    (hne : pyStrip (strDrop body 1) ≠ "")
    (hnv : pyStrip (strDrop body 1) ∉ ALLOWED_COMMANDS) :
    processEnvelope senders ⟨sender, body⟩ =
      [.send (invalidCommandMsg (pyStrip (strDrop body 1)))] := by
  have hb : body ≠ "" := by
    intro h
    rw [h] at hpre
    exact absurd hpre (by decide)
  have hlen : commandPrefixStr.length = 1 := rfl
  have hauth' : ¬ sender ∉ senders := fun hn => hn hauth
  simp only [processEnvelope, parse_command, hpre, if_true, hlen, if_neg hb]
  rw [if_neg hne]
  simp only [handle_command, if_neg hauth', if_pos hnv]

/-- C3 witness: a concrete authorized sender sending a misspelled command
receives exactly the invalid-command notification naming it. -/
theorem C3_amended_invalid_witness :
    processEnvelope ["admin"] ⟨"admin", "!foundry halp"⟩ =
      [.send (invalidCommandMsg "foundry halp")] :=
  C3_amended_invalid ["admin"] "admin" "!foundry halp"
    (by decide) (by decide) (by decide) (by decide)

/-- C4: with a Prober that returns `(false, false)` on every attempt, the
monitor performs exactly 3 probe rounds with a 5-unit sleep between
consecutive rounds (the trace also ends with one further 5-unit sleep
after the last failed round, as written in the loop body), then sends
exactly one failure alert and returns overall failure.  The full event
trace is given explicitly. -/
theorem C4_all_attempts_fail (prober : Nat → Bool × Bool)
    (h : ∀ n, prober n = (false, false)) :
    health_check prober = (false,
      [.log (attemptMsg 1), .probe false false, .log (retryMsg 1 false false), .sleep 5,
       .log (attemptMsg 2), .probe false false, .log (retryMsg 2 false false), .sleep 5,
       .log (attemptMsg 3), .probe false false, .log (retryMsg 3 false false), .sleep 5,
       .alert healthFailAlertMsg]) ∧
    probeCount (health_check prober).2 = 3 ∧
    alertCount (health_check prober).2 = 1 := by
  have htrace : health_check prober = (false,
      [.log (attemptMsg 1), .probe false false, .log (retryMsg 1 false false), .sleep 5,
       .log (attemptMsg 2), .probe false false, .log (retryMsg 2 false false), .sleep 5,
       .log (attemptMsg 3), .probe false false, .log (retryMsg 3 false false), .sleep 5,
       .alert healthFailAlertMsg]) := by
    simp [health_check, healthLoop, healthRetries, h]
  exact ⟨htrace, by rw [htrace]; rfl, by rw [htrace]; rfl⟩

/-- C4 witness: the constantly failing Prober realizes the failure trace. -/
theorem C4_all_attempts_fail_witness :
    health_check (fun _ => (false, false)) = (false,
      [.log (attemptMsg 1), .probe false false, .log (retryMsg 1 false false), .sleep 5,
       .log (attemptMsg 2), .probe false false, .log (retryMsg 2 false false), .sleep 5,
       .log (attemptMsg 3), .probe false false, .log (retryMsg 3 false false), .sleep 5,
       .alert healthFailAlertMsg]) ∧
    probeCount (health_check (fun _ => (false, false))).2 = 3 ∧
    alertCount (health_check (fun _ => (false, false))).2 = 1 :=
  C4_all_attempts_fail (fun _ => (false, false)) (fun _ => rfl)

/-- C5: with a Prober that fails on attempt 1 (not both checks true) and
returns `(true, true)` on attempt 2, the monitor stops after exactly 2
probe rounds, sends zero alerts, and returns success. -/
theorem C5_succeeds_on_second_attempt (prober : Nat → Bool × Bool)
    (h1 : ((prober 1).1 && (prober 1).2) = false)
    (h2 : prober 2 = (true, true)) :
    (health_check prober).1 = true ∧
    probeCount (health_check prober).2 = 2 ∧
    alertCount (health_check prober).2 = 0 := by
  refine ⟨?_, ?_, ?_⟩ <;>
    simp [health_check, healthLoop, healthRetries, h1, h2, probeCount, alertCount]

/-- C5 witness: a concrete Prober failing once then healthy. -/
theorem C5_succeeds_on_second_attempt_witness :
    (health_check (fun n => if n = 2 then (true, true) else (false, false))).1 = true ∧
    probeCount (health_check (fun n => if n = 2 then (true, true) else (false, false))).2 = 2 ∧
    alertCount (health_check (fun n => if n = 2 then (true, true) else (false, false))).2 = 0 :=
  C5_succeeds_on_second_attempt (fun n => if n = 2 then (true, true) else (false, false))
    (by decide) (by decide)

/-- C6 (counterexample): a poll cycle containing one well-formed line
carrying a valid authorized command dispatches the command but writes
zero log lines, refuting "exactly one log line per received command". -/
theorem C6_counterexample :
    processCycle ["admin"] [.wellFormed ⟨"admin", "!foundry help"⟩] =
      ([.send helpMessage], []) := by
  decide

/-- C6 (amended): each poll cycle writes exactly one log line (carrying
the raw content) per line that fails to decode as JSON, and no log line
for any other line — in particular none per received command. -/
theorem C6_decode_failure_logs (senders : List String) (lines : List RawLine) :
    (processCycle senders lines).2 =
      lines.filterMap (fun l =>
        match l with
        | .malformed raw => some (decodeFailMsg raw)
        | .wellFormed _ => none) := by
  induction lines with
  | nil => rfl
  | cons l rest ih => cases l <;> simp [processCycle, ih]

/-- C7: a body that does not start with the prefix character produces no
effect at all — no action, no reply — regardless of the sender. -/
theorem C7_no_prefix_silently_ignored (senders : List String) (env : Envelope)
    (h : pyStartswith env.body commandPrefixStr = false) :
    processEnvelope senders env = [] := by
  by_cases hb : env.body = ""
  · simp [processEnvelope, hb]
  · simp [processEnvelope, hb, parse_command, h]

/-- C7 witness: ordinary chat from an unauthorized sender draws no
reply. -/
theorem C7_no_prefix_silently_ignored_witness :
    processEnvelope ["admin"] ⟨"someone", "hello there"⟩ = [] :=
  C7_no_prefix_silently_ignored ["admin"] ⟨"someone", "hello there"⟩ (by decide)

/-- C8: for every allow-list and every authorized sender, dispatching
`!foundry help` sends exactly the one fixed multi-line message listing
all 8 vocabulary commands; the result does not depend on which
authorized sender issued it. -/
theorem C8_help_is_fixed (senders : List String) (sender : String)
    (h : sender ∈ senders) :
    processEnvelope senders ⟨sender, "!foundry help"⟩ = [.send helpMessage] := by
  have h' : ¬ sender ∉ senders := fun hn => hn h
  have hparse : parse_command "!foundry help" = some "foundry help" := by decide
  simp only [processEnvelope, hparse]
  simp only [handle_command, if_neg h']
  decide

/-- C8 witness: a concrete authorized sender receives the fixed help
message. -/
theorem C8_help_is_fixed_witness :
    processEnvelope ["admin"] ⟨"admin", "!foundry help"⟩ = [.send helpMessage] :=
  C8_help_is_fixed ["admin"] "admin" (by decide)

/-- C9: `check_foundry_container` is true iff the container query's
stripped output is non-empty; `check_web_server` is true iff the curl
probe exited 0; and a failed or timed-out command (non-zero exit, empty
output) makes both return false — neither can raise. -/
theorem C9_prober_boundary (r : CmdResult) :
    (check_foundry_container r = true ↔ pyStrip r.stdout ≠ "") ∧
    (check_web_server r = true ↔ r.exitcode = 0) ∧
    (r.exitcode ≠ 0 → r.stdout = "" →
      check_foundry_container r = false ∧ check_web_server r = false) := by
  refine ⟨?_, ?_, ?_⟩
  · simp [check_foundry_container]
  · simp [check_web_server]
  · intro h1 h2
    constructor
    · rw [check_foundry_container, h2]
      decide
    · simp [check_web_server, h1]

/-- C9 witness: a timed-out curl (exit 28) with empty output yields false
from both checks. -/
theorem C9_prober_boundary_witness :
    check_foundry_container ⟨28, ""⟩ = false ∧ check_web_server ⟨28, ""⟩ = false :=
  (C9_prober_boundary ⟨28, ""⟩).2.2 (by decide) rfl

/-- C10: for every possible sequence of Prober results, the health-check
retry loop performs at most `healthRetries` (3) probe rounds — it never
retries unboundedly (the embedding is a total, structurally terminating
function). -/
theorem C10_bounded_retries (prober : Nat → Bool × Bool) :
    probeCount (health_check prober).2 ≤ healthRetries :=
  probeCount_healthLoop_le prober healthRetries 1
